import Mathlib

/-!
Verification of the LAMMPS Accelerator Library neighbor-list slice
(src/lib/gpu/neighbor.h and src/lib/gpu/neighbor_shared.cpp) against its
natural-language specification.

The C++ code is shallowly embedded: device buffers become lists, kernel
handles and compiled programs become booleans recording whether the handle
is set, and the in/out parameters (`bool &success`, `int &max_nbors`) become
explicit return components.  Process termination (`exit(1)`) is modelled by
an `Option` result, `none` meaning the process died.
-/

namespace LAMMPS_AL

/-- Device backend selected at build time by the `USE_OPENCL` preprocessor
flag in neighbor.h / neighbor_shared.cpp. -/
inductive Backend where
  | opencl : Backend
  | cuda : Backend
deriving DecidableEq

/-- State of the shared kernel registry `NeighborShared`
(neighbor_shared.cpp).  Each kernel handle (`UCL_Kernel`) and program
pointer (`UCL_Program*`) is modelled by a boolean: `true` when the handle
has been set / the program allocated.  The class declaration lives in
neighbor_shared.h which is not part of this slice; the fields here are
exactly the ones neighbor_shared.cpp manipulates. -/
structure NeighborShared where
  _compiled : Bool
  _gpu_nbor : Nat
  nbor_program : Bool
  build_program : Bool
  k_nbor : Bool
  k_cell_id : Bool
  k_cell_counts : Bool
  k_build_nbor : Bool
  k_transpose : Bool
  k_special : Bool
  neigh_tex : Bool
deriving DecidableEq

/-- Modelled from the spec: the initial, not-yet-compiled registry state
(the constructor is declared in neighbor_shared.h, which is missing from
this slice; the spec says the registry compiles lazily, at most once per
run, so it starts uncompiled with no programs or kernel handles). -/
def NeighborShared.initial : NeighborShared where
  _compiled := false
  _gpu_nbor := 0
  nbor_program := false
  build_program := false
  k_nbor := false
  k_cell_id := false
  k_cell_counts := false
  k_build_nbor := false
  k_transpose := false
  k_special := false
  neigh_tex := false

/-- A registry state holding no compiled program and no kernel handle. -/
def NeighborShared.Released (s : NeighborShared) : Prop :=
  s._compiled = false ∧ s.nbor_program = false ∧ s.build_program = false ∧
  s.k_nbor = false ∧ s.k_cell_id = false ∧ s.k_cell_counts = false ∧
  s.k_build_nbor = false ∧ s.k_transpose = false ∧ s.k_special = false

instance (s : NeighborShared) : Decidable s.Released := by
  unfold NeighborShared.Released; infer_instance

/-- Embedding of `NeighborShared::compile_kernels` (neighbor_shared.cpp,
lines 47-79).  `none` models `exit(1)`.  Mirrors the source exactly: early
return when `_compiled`; `gpu_nbor==0` loads the unpack program and sets
`k_nbor`; otherwise the build program is allocated, under OpenCL
`gpu_nbor==1` aborts the process, the two cell kernels are set only when
`gpu_nbor==1`, and the build/transpose/special kernels and the texture are
always set. -/
def NeighborShared.compile_kernels (s : NeighborShared) (backend : Backend)
    (gpu_nbor : Nat) : Option NeighborShared :=
  if s._compiled then some s
  else
    let s1 : NeighborShared := { s with _gpu_nbor := gpu_nbor }
    if gpu_nbor = 0 then
      some { s1 with nbor_program := true, k_nbor := true, _compiled := true }
    else
      let s2 : NeighborShared := { s1 with build_program := true }
      if backend = Backend.opencl ∧ gpu_nbor = 1 then
        none
      else
        let s3 : NeighborShared :=
          if gpu_nbor = 1 then
            { s2 with k_cell_id := true, k_cell_counts := true }
          else s2
        some { s3 with k_build_nbor := true, k_transpose := true,
                       k_special := true, neigh_tex := true, _compiled := true }

/-- Embedding of `NeighborShared::clear` (neighbor_shared.cpp, lines
28-45): when compiled, release the kernel handles of the compiled bundle
(the cell kernels only when `_gpu_nbor==1`), delete the program, and mark
the registry uncompiled; otherwise do nothing. -/
def NeighborShared.clear (s : NeighborShared) : NeighborShared :=
  if s._compiled then
    if s._gpu_nbor > 0 then
      let s1 : NeighborShared :=
        if s._gpu_nbor = 1 then
          { s with k_cell_id := false, k_cell_counts := false }
        else s
      { s1 with k_build_nbor := false, k_transpose := false,
                k_special := false, build_program := false, _compiled := false }
    else
      { s with k_nbor := false, nbor_program := false, _compiled := false }
  else s

/-- IJ_SIZE from neighbor.h line 23. -/
def IJ_SIZE : Nat := 131072

/-- Number of bytes in a C `int` on the targeted platforms
(`sizeof(int)` in `Neighbor::gpu_bytes`). -/
def sizeof_int : Nat := 4

/-- The capacity-growth arithmetic `static_cast<int>(static_cast<double>(n)*1.10)`
used by both `Neighbor::resize` overloads (neighbor.h lines 81-83, 96-99).
For `0 ≤ n < 2^31` this double computation is exactly `⌊11*n/10⌋`: the double
literal `1.10` is `11/10 + ε` with `ε < 2^-53`, so the rounded product lies in
`[11n/10, 11n/10 + n*ε + ulp)` and the perturbation `n*ε + ulp < 1/10` can
never reach the next integer, hence truncation yields `⌊11n/10⌋`. -/
def grow110 (n : Nat) : Nat := n * 11 / 10

/-- State of a `Neighbor` manager (neighbor.h).  Device vectors are lists of
ints; the byte-accounting fields `_gpu_bytes`, `_c_bytes`, `_cell_bytes`
(doubles in the source that only ever hold byte counts) are naturals. -/
structure Neighbor where
  _max_atoms : Nat
  _max_nbors : Nat
  _max_host : Nat
  _gpu_nbor : Nat
  _use_packing : Bool
  _allocated : Bool
  _gpu_bytes : Nat
  _c_bytes : Nat
  _cell_bytes : Nat
  dev_nbor : List Int
  dev_packed : List Int
deriving DecidableEq

/-- Modelled from the spec: `Neighbor::alloc` (implemented in neighbor.cpp,
which is not part of this slice) reallocates the full buffer set to the
current capacity fields and reports success through its `bool &success`
out-parameter; it does not change `_max_atoms`, `_max_nbors` or `_max_host`
(the spec: "allocates device and host buffers sized to
`(inum, host_inum, max_nbors)`", "Growth always reallocates the full buffer
set").  The success/failure outcome of the device allocation is an
environment input `ok`. -/
def Neighbor.alloc (s : Neighbor) (ok : Bool) : Neighbor × Bool :=
  ({ s with _allocated := ok }, ok)

/-- Embedding of the two-argument `Neighbor::resize(inum, max_nbor, success)`
(neighbor.h lines 79-86).  `success` is the value of the in/out `bool
&success` before the call; the returned boolean is its value after.  `ok` is
the allocation outcome consumed by `alloc` when it is called. -/
def Neighbor.resize (s : Neighbor) (inum max_nbor : Nat) (success ok : Bool) :
    Neighbor × Bool :=
  if inum > s._max_atoms ∨ max_nbor > s._max_nbors then
    let s1 : Neighbor := { s with _max_atoms := grow110 inum }
    let s2 : Neighbor :=
      if max_nbor > s1._max_nbors then { s1 with _max_nbors := grow110 max_nbor }
      else s1
    s2.alloc ok
  else (s, success)

/-- Embedding of the three-argument
`Neighbor::resize(inum, host_inum, max_nbor, success)` (neighbor.h lines
93-102). -/
def Neighbor.resize3 (s : Neighbor) (inum host_inum max_nbor : Nat)
    (success ok : Bool) : Neighbor × Bool :=
  if inum > s._max_atoms ∨ max_nbor > s._max_nbors ∨ host_inum > s._max_host then
    let s1 : Neighbor := { s with _max_atoms := grow110 inum,
                                  _max_host := grow110 host_inum }
    let s2 : Neighbor :=
      if max_nbor > s1._max_nbors then { s1 with _max_nbors := grow110 max_nbor }
      else s1
    s2.alloc ok
  else (s, success)

/-- Embedding of `Neighbor::gpu_bytes` (neighbor.h lines 152-158). -/
def Neighbor.gpu_bytes (s : Neighbor) : Nat :=
  let res := s._gpu_bytes + s._c_bytes + s._cell_bytes
  if s._gpu_nbor = 0 then res + 2 * IJ_SIZE * sizeof_int else res

/-- Embedding of `Neighbor::copy_unpacked` (neighbor.h lines 119-121):
`ucl_copy(dev_packed, dev_nbor, inum*(maxj+2), true)` copies the first
`inum*(maxj+2)` elements of `dev_nbor` over the start of `dev_packed`. -/
def Neighbor.copy_unpacked (s : Neighbor) (inum maxj : Nat) : Neighbor :=
  { s with dev_packed := s.dev_nbor.take (inum * (maxj + 2)) ++
                         s.dev_packed.drop (inum * (maxj + 2)) }

/-- Embedding of `Neighbor::max_nbor_loop` (neighbor.h lines 137-142).  The
C arrays `numj` and `ilist` are modelled as lists; as in C, reading them is
only meaningful at valid indices (the theorems assume validity), and the
out-of-range default is irrelevant under that assumption. -/
def Neighbor.max_nbor_loop (inum : Nat) (numj : List Int) (ilist : List Nat) :
    Int :=
  (List.range inum).foldl (fun mn i => max mn (numj.getD (ilist.getD i 0) 0)) 0

/-- Position of a particle; the spec's real-valued coordinates are taken at
integer grid points, which suffices for the capacity/overflow behaviour
under scrutiny (no floating-point rounding is modelled). -/
abbrev Pos3 := Int × Int × Int

/-- Squared Euclidean distance between two positions. -/
def dist_sq (a b : Pos3) : Int :=
  (a.1 - b.1) ^ 2 + (a.2.1 - b.2.1) ^ 2 + (a.2.2 - b.2.2) ^ 2

/-- Modelled from the spec: the actual neighbor count of particle `i`
during a device-side build — the number of other particles among the `nall`
local+ghost particles lying within the cutoff (squared cutoff `cutsq`) of
`i` (spec §4.2 `build_nbor_list`, step 4). -/
def nbor_count (nall : Nat) (pos : Nat → Pos3) (cutsq : Int) (i : Nat) : Nat :=
  ((List.range nall).filter
    (fun j => decide (j ≠ i ∧ dist_sq (pos i) (pos j) ≤ cutsq))).length

/-- Modelled from the spec: `Neighbor::build_nbor_list` (template declared
at neighbor.h lines 144-149, implemented in neighbor.cpp, which is not part
of this slice).  Only the observable capacity contract is modelled (spec
§4.2, step 6): the build re-scans the actual per-particle neighbor counts;
if the maximum exceeds the allocated `_max_nbors` it signals failure
through `success=false`, and in all cases it reports the observed maximum
count through the `int &max_nbors` out-parameter (the third component of
the result).  The kernel-written buffer contents are outside this model. -/
def Neighbor.build_nbor_list (s : Neighbor) (inum nall : Nat)
    (pos : Nat → Pos3) (cutsq : Int) (success : Bool) :
    Neighbor × Bool × Nat :=
  let mn := (List.range inum).foldl
    (fun m i => max m (nbor_count nall pos cutsq i)) 0
  if mn > s._max_nbors then (s, false, mn) else (s, success, mn)

/-! ### Helper lemmas -/

theorem le_grow110 (n : Nat) : n ≤ grow110 n := by
  unfold grow110
  omega

theorem init_le_foldl_max {α : Type} [LinearOrder α] (f : Nat → α) (a : α)
    (n : Nat) : a ≤ (List.range n).foldl (fun m j => max m (f j)) a := by
  induction n with
  | zero => simp
  | succ k ih =>
      rw [List.range_succ, List.foldl_append]
      simp only [List.foldl_cons, List.foldl_nil]
      exact le_trans ih (le_max_left _ _)

theorem le_foldl_max {α : Type} [LinearOrder α] (f : Nat → α) (a : α)
    (n i : Nat) (h : i < n) :
    f i ≤ (List.range n).foldl (fun m j => max m (f j)) a := by
  induction n with
  | zero => omega
  | succ k ih =>
      rw [List.range_succ, List.foldl_append]
      simp only [List.foldl_cons, List.foldl_nil]
      rcases Nat.lt_succ_iff_lt_or_eq.mp h with h' | h'
      · exact le_trans (ih h') (le_max_left _ _)
      · subst h'
        exact le_max_right _ _

theorem foldl_max_attained {α : Type} [LinearOrder α] (f : Nat → α) (a : α)
    (n : Nat) :
    (List.range n).foldl (fun m j => max m (f j)) a = a ∨
    ∃ i, i < n ∧ (List.range n).foldl (fun m j => max m (f j)) a = f i := by
  induction n with
  | zero => left; rfl
  | succ k ih =>
      rw [List.range_succ, List.foldl_append]
      simp only [List.foldl_cons, List.foldl_nil]
      rcases max_choice ((List.range k).foldl (fun m j => max m (f j)) a)
        (f k) with h | h
      · rw [h]
        rcases ih with h' | ⟨i, hi, h'⟩
        · left; exact h'
        · right; exact ⟨i, Nat.lt_succ_of_lt hi, h'⟩
      · rw [h]
        right
        exact ⟨k, Nat.lt_succ_self k, rfl⟩

theorem clear_compiled_eq_false (s : NeighborShared) :
    (s.clear)._compiled = false := by
  unfold NeighborShared.clear
  split
  · split
    · rfl
    · rfl
  · next h => simpa using h

theorem clear_of_not_compiled (s : NeighborShared) (h : s._compiled = false) :
    s.clear = s := by
  unfold NeighborShared.clear
  simp [h]

/-! ### Theorems about the shared kernel registry -/

/-- C5: registry compilation is idempotent — once `_compiled` is set, any
further `compile_kernels` call, for any backend and any mode argument,
returns the state unchanged and compiles nothing. -/
theorem compile_kernels_idempotent (s : NeighborShared) (b : Backend)
    (g : Nat) (h : s._compiled = true) : s.compile_kernels b g = some s := by
  unfold NeighborShared.compile_kernels
  simp [h]

/-- C5 witness: a concrete already-compiled registry state is returned
unchanged by a further `compile_kernels` call with a different mode. -/
theorem compile_kernels_idempotent_witness :
    ({ NeighborShared.initial with _compiled := true } :
        NeighborShared)._compiled = true ∧
    ({ NeighborShared.initial with _compiled := true } :
        NeighborShared).compile_kernels Backend.cuda 2 =
      some { NeighborShared.initial with _compiled := true } :=
  ⟨rfl, compile_kernels_idempotent
    { NeighborShared.initial with _compiled := true } Backend.cuda 2 rfl⟩

/-- C4: requesting device-side neighboring (`gpu_nbor==1`, the
`DeviceNeighbor` mode) under the OpenCL backend makes `compile_kernels`
terminate the process (`exit(1)`, modelled by `none`) instead of returning
a recoverable error. -/
theorem compile_kernels_opencl_fatal (s : NeighborShared)
    (h : s._compiled = false) :
    s.compile_kernels Backend.opencl 1 = none := by
  unfold NeighborShared.compile_kernels
  simp [h]

/-- C4 witness: the fatal path taken from the initial registry state. -/
theorem compile_kernels_opencl_fatal_witness :
    NeighborShared.initial._compiled = false ∧
    NeighborShared.initial.compile_kernels Backend.opencl 1 = none :=
  ⟨rfl, compile_kernels_opencl_fatal NeighborShared.initial rfl⟩

/-- C2 counterexample: on an uncompiled registry, compiling with mode
`gpu_nbor==2` (binning on host, neighboring on device) succeeds but does
NOT compile the cell-id assignment kernel nor the cell-count histogram
kernel — contrary to the claim that every mode other than `HostNeighbor`
compiles the full binning/build bundle. -/
theorem compile_kernels_gpu2_no_cell_kernels :
    (NeighborShared.initial.compile_kernels Backend.cuda 2).map
      NeighborShared.k_cell_id = some false ∧
    (NeighborShared.initial.compile_kernels Backend.cuda 2).map
      NeighborShared.k_cell_counts = some false ∧
    (NeighborShared.initial.compile_kernels Backend.cuda 2).map
      NeighborShared.k_build_nbor = some true := by
  decide

/-- C2 (amended): on an uncompiled, handle-free registry, mode 0
(`HostNeighbor`) compiles only the unpack kernel; mode 1 (full device
neighboring, CUDA backend) compiles the cell-id, cell-count, build,
transpose and special kernels; mode 2 (host binning, device build)
compiles the build, transpose and special kernels but not the two cell
(binning) kernels. -/
theorem compile_kernels_kernel_sets (s : NeighborShared) (b : Backend)
    (h : s.Released) :
    s.compile_kernels b 0 = some { s with
      _gpu_nbor := 0, nbor_program := true, k_nbor := true,
      _compiled := true } ∧
    s.compile_kernels Backend.cuda 1 = some { s with
      _gpu_nbor := 1, build_program := true, k_cell_id := true,
      k_cell_counts := true, k_build_nbor := true, k_transpose := true,
      k_special := true, neigh_tex := true, _compiled := true } ∧
    s.compile_kernels b 2 = some { s with
      _gpu_nbor := 2, build_program := true, k_build_nbor := true,
      k_transpose := true, k_special := true, neigh_tex := true,
      _compiled := true } ∧
    s.build_program = false ∧ s.k_cell_id = false ∧ s.k_cell_counts = false ∧
    s.k_nbor = false := by
  obtain ⟨hc, hnp, hbp, hkn, hci, hcc, hbn, htr, hsp⟩ := h
  refine ⟨?_, ?_, ?_, hbp, hci, hcc, hkn⟩ <;>
    simp [NeighborShared.compile_kernels, hc]

/-- C2 witness: the amended kernel-set characterization evaluated at the
initial registry state with the CUDA backend. -/
theorem compile_kernels_kernel_sets_witness :
    NeighborShared.initial.Released ∧
    (NeighborShared.initial.compile_kernels Backend.cuda 0 =
      some { NeighborShared.initial with
        _gpu_nbor := 0, nbor_program := true, k_nbor := true,
        _compiled := true } ∧
    NeighborShared.initial.compile_kernels Backend.cuda 1 =
      some { NeighborShared.initial with
        _gpu_nbor := 1, build_program := true, k_cell_id := true,
        k_cell_counts := true, k_build_nbor := true, k_transpose := true,
        k_special := true, neigh_tex := true, _compiled := true } ∧
    NeighborShared.initial.compile_kernels Backend.cuda 2 =
      some { NeighborShared.initial with
        _gpu_nbor := 2, build_program := true, k_build_nbor := true,
        k_transpose := true, k_special := true, neigh_tex := true,
        _compiled := true } ∧
    NeighborShared.initial.build_program = false ∧
    NeighborShared.initial.k_cell_id = false ∧
    NeighborShared.initial.k_cell_counts = false ∧
    NeighborShared.initial.k_nbor = false) :=
  ⟨by decide, compile_kernels_kernel_sets NeighborShared.initial
    Backend.cuda (by decide)⟩

/-- A concrete registry state as produced by compiling mode 1 on CUDA from
the initial state. -/
def compiledEx : NeighborShared :=
  { NeighborShared.initial with
    _gpu_nbor := 1, build_program := true, k_cell_id := true,
    k_cell_counts := true, k_build_nbor := true, k_transpose := true,
    k_special := true, neigh_tex := true, _compiled := true }

/-- C6: for any registry state reached by compiling from a released
(handle-free, uncompiled) state, one `clear` destroys every compiled
program and kernel handle and marks the registry uncompiled, and a second
`clear` in that released state changes nothing. -/
theorem clear_complete_and_idempotent (s0 s1 : NeighborShared) (b : Backend)
    (g : Nat) (h0 : s0.Released) (hc : s0.compile_kernels b g = some s1) :
    (s1.clear).Released ∧ s1.clear.clear = s1.clear := by
  obtain ⟨hcm, hnp, hbp, hkn, hci, hcc, hbn, htr, hsp⟩ := h0
  refine ⟨?_, clear_of_not_compiled _ (clear_compiled_eq_false s1)⟩
  unfold NeighborShared.compile_kernels at hc
  rw [hcm] at hc
  by_cases hg0 : g = 0
  · subst hg0
    simp at hc
    subst hc
    unfold NeighborShared.clear NeighborShared.Released
    simp [hbp, hci, hcc, hbn, htr, hsp]
  · by_cases hg1 : g = 1
    · subst hg1
      cases b with
      | opencl => simp at hc
      | cuda =>
          simp at hc
          subst hc
          unfold NeighborShared.clear NeighborShared.Released
          simp [hkn, hnp]
    · simp [hg0, hg1] at hc
      subst hc
      have hpos : 0 < g := Nat.pos_of_ne_zero hg0
      unfold NeighborShared.clear NeighborShared.Released
      simp [hg1, hpos, hkn, hnp, hci, hcc]

/-- C6 witness: clearing the concrete compiled state obtained from the
initial registry with the CUDA backend and mode 1. -/
theorem clear_complete_and_idempotent_witness :
    (NeighborShared.initial.Released ∧
     NeighborShared.initial.compile_kernels Backend.cuda 1 =
       some compiledEx) ∧
    ((compiledEx.clear).Released ∧
     compiledEx.clear.clear = compiledEx.clear) :=
  ⟨⟨by decide, by decide⟩,
   clear_complete_and_idempotent NeighborShared.initial compiledEx
     Backend.cuda 1 (by decide) (by decide)⟩

/-! ### Theorems about the Neighbor manager -/

/-- A concrete manager state with capacity 100 atoms and 10 neighbors. -/
def nbCap100 : Neighbor :=
  { _max_atoms := 100, _max_nbors := 10, _max_host := 50, _gpu_nbor := 1,
    _use_packing := false, _allocated := true, _gpu_bytes := 0, _c_bytes := 0,
    _cell_bytes := 0, dev_nbor := [], dev_packed := [] }

/-- C1 counterexample: capacities are NOT non-decreasing, and a grown
dimension is NOT guaranteed 110% of the request.  From `_max_atoms = 100`,
`_max_nbors = 10`, the call `resize(5, 20, success)` triggers (20 > 10) and
overwrites `_max_atoms` with `int(5*1.10) = 5`, shrinking it from 100 to 5;
likewise `resize(5, 20, ...)` on the three-argument overload shrinks
`_max_host` from 50 to 5.  And from `_max_atoms = 3`, the triggering call
`resize(5, 2, ...)` grows `_max_atoms` to `int(5*1.10) = 5`, which is less
than 110% of the requested 5 (5 < 5.5, i.e. 10*5 < 11*5). -/
theorem resize_not_monotone :
    nbCap100._max_atoms = 100 ∧
    ((nbCap100.resize 5 20 true true).1)._max_atoms = 5 ∧
    nbCap100._max_host = 50 ∧
    ((nbCap100.resize3 5 5 20 true true).1)._max_host = 5 ∧
    (({ nbCap100 with _max_atoms := 3 } : Neighbor).resize 5 2 true
      true).1._max_atoms = 5 ∧
    10 * (({ nbCap100 with _max_atoms := 3 } : Neighbor).resize 5 2 true
      true).1._max_atoms < 11 * 5 := by
  decide

/-- C1 (amended): across any sequence of `resize` calls `_max_nbors` is
non-decreasing, and after any `resize` call every requested dimension is
within the new capacity (`inum ≤ _max_atoms`, `host_inum ≤ _max_host`,
`max_nbor ≤ _max_nbors` — a triggering call sets a grown dimension to
`⌊1.10 × request⌋ ≥ request`); `_max_atoms` and `_max_host`, however, are
overwritten with `⌊1.10 × request⌋` on every triggering call and may
shrink. -/
theorem resize_capacity_bounds (s : Neighbor) (inum host_inum max_nbor : Nat)
    (success ok : Bool) :
    (s._max_nbors ≤ ((s.resize inum max_nbor success ok).1)._max_nbors ∧
     inum ≤ ((s.resize inum max_nbor success ok).1)._max_atoms ∧
     max_nbor ≤ ((s.resize inum max_nbor success ok).1)._max_nbors) ∧
    (s._max_nbors ≤
       ((s.resize3 inum host_inum max_nbor success ok).1)._max_nbors ∧
     inum ≤ ((s.resize3 inum host_inum max_nbor success ok).1)._max_atoms ∧
     host_inum ≤ ((s.resize3 inum host_inum max_nbor success ok).1)._max_host ∧
     max_nbor ≤
       ((s.resize3 inum host_inum max_nbor success ok).1)._max_nbors) := by
  unfold Neighbor.resize Neighbor.resize3 Neighbor.alloc grow110
  constructor
  · by_cases hcond : inum > s._max_atoms ∨ max_nbor > s._max_nbors
    · rw [if_pos hcond]
      by_cases hmn : max_nbor > s._max_nbors <;> simp [hmn] <;> omega
    · rw [if_neg hcond]
      simp only
      exact ⟨le_refl _, by omega, by omega⟩
  · by_cases hcond : inum > s._max_atoms ∨ max_nbor > s._max_nbors ∨
      host_inum > s._max_host
    · rw [if_pos hcond]
      by_cases hmn : max_nbor > s._max_nbors <;> simp [hmn] <;> omega
    · rw [if_neg hcond]
      simp only
      exact ⟨le_refl _, by omega, by omega, by omega⟩

/-- C8: a resize request already within capacity in every dimension is a
no-op — the state (capacities, buffers, everything) is returned unchanged
and the `success` in/out parameter keeps the value it had before the
call. -/
theorem resize_noop (s : Neighbor) (inum host_inum max_nbor : Nat)
    (success ok : Bool) (h1 : inum ≤ s._max_atoms)
    (h2 : max_nbor ≤ s._max_nbors) (h3 : host_inum ≤ s._max_host) :
    s.resize inum max_nbor success ok = (s, success) ∧
    s.resize3 inum host_inum max_nbor success ok = (s, success) := by
  unfold Neighbor.resize Neighbor.resize3
  refine ⟨if_neg ?_, if_neg ?_⟩ <;> omega

/-- C8 witness: a within-capacity request on a concrete state, with the
in/out `success` flag entering as `true` and an allocation environment that
would fail — neither is consulted, and `success` comes back `true`. -/
theorem resize_noop_witness :
    (1 ≤ nbCap100._max_atoms ∧ 2 ≤ nbCap100._max_nbors ∧
     3 ≤ nbCap100._max_host) ∧
    (nbCap100.resize 1 2 true false = (nbCap100, true) ∧
     nbCap100.resize3 1 3 2 true false = (nbCap100, true)) :=
  ⟨⟨by decide, by decide, by decide⟩,
   resize_noop nbCap100 1 3 2 true false (by decide) (by decide) (by decide)⟩

/-- C7: `gpu_bytes` returns the sum of the recorded neighbor, cell and
count byte totals, plus the `2*IJ_SIZE*sizeof(int)` host-list staging bytes
exactly when `_gpu_nbor == 0` (host-built neighboring); the reported total
strictly exceeds the plain sum if and only if the mode is HostNeighbor. -/
theorem gpu_bytes_accounting (s : Neighbor) :
    s.gpu_bytes = s._gpu_bytes + s._c_bytes + s._cell_bytes +
      (if s._gpu_nbor = 0 then 2 * IJ_SIZE * sizeof_int else 0) ∧
    (s._gpu_bytes + s._c_bytes + s._cell_bytes < s.gpu_bytes ↔
      s._gpu_nbor = 0) := by
  unfold Neighbor.gpu_bytes IJ_SIZE sizeof_int
  by_cases h : s._gpu_nbor = 0 <;> simp [h]

/-- A concrete manager state with a 3-element neighbor matrix, packing
flag `b`. -/
def nbPack (b : Bool) : Neighbor :=
  { _max_atoms := 1, _max_nbors := 1, _max_host := 0, _gpu_nbor := 0,
    _use_packing := b, _allocated := true, _gpu_bytes := 0, _c_bytes := 0,
    _cell_bytes := 0, dev_nbor := [7, 8, 9], dev_packed := [0, 0, 0] }

/-- C9 counterexample: `copy_unpacked` performs the copy unconditionally —
the body `ucl_copy(dev_packed, dev_nbor, inum*(maxj+2), true)` never
consults `_use_packing`, so the duplication happens whether the packing
flag is off or on.  With the flag off, `dev_packed` is still overwritten
(here from `[0,0,0]` to `[7,8,9]`), refuting "does so only when packing
mode is enabled" under either reading of which flag value means
enabled. -/
theorem copy_unpacked_ignores_packing_flag :
    (nbPack false)._use_packing = false ∧
    ((nbPack false).copy_unpacked 1 1).dev_packed = [7, 8, 9] ∧
    ((nbPack false).copy_unpacked 1 1).dev_packed ≠ (nbPack false).dev_packed ∧
    ((nbPack true).copy_unpacked 1 1).dev_packed = [7, 8, 9] := by
  decide

/-- C9 (amended): `copy_unpacked(inum, maxj)` always duplicates the first
`inum*(maxj+2)` entries of the coalesced matrix `dev_nbor` into the packed
storage `dev_packed`, independent of the packing flag — entry `k` of
`dev_packed` afterwards equals entry `k` of `dev_nbor` for every
`k < inum*(maxj+2)` — and it changes nothing but `dev_packed` (in
particular `dev_nbor` and `_use_packing` are untouched); invoking it only
when packing mode is enabled is the caller's responsibility, not enforced
here. -/
theorem copy_unpacked_copies (s : Neighbor) (inum maxj : Nat)
    (h : inum * (maxj + 2) ≤ s.dev_nbor.length) :
    (∀ k, k < inum * (maxj + 2) →
      ((s.copy_unpacked inum maxj).dev_packed).getD k 0 =
        s.dev_nbor.getD k 0) ∧
    (s.copy_unpacked inum maxj).dev_nbor = s.dev_nbor ∧
    (s.copy_unpacked inum maxj)._use_packing = s._use_packing ∧
    s.copy_unpacked inum maxj =
      { s with dev_packed := (s.copy_unpacked inum maxj).dev_packed } := by
  refine ⟨?_, rfl, rfl, rfl⟩
  intro k hk
  unfold Neighbor.copy_unpacked
  have hkl : k < s.dev_nbor.length := lt_of_lt_of_le hk h
  have hkt : k < (s.dev_nbor.take (inum * (maxj + 2))).length := by
    simp [hkl]
    omega
  simp only
  rw [List.getD_append _ _ _ _ hkt]
  rw [List.getD_eq_getElem _ _ hkt, List.getD_eq_getElem _ _ hkl]
  simp [List.getElem_take]

/-- C9 witness: the elementwise copy and frame conditions evaluated on the
concrete packing-disabled state. -/
theorem copy_unpacked_copies_witness :
    1 * (1 + 2) ≤ (nbPack false).dev_nbor.length ∧
    ((∀ k, k < 1 * (1 + 2) →
        (((nbPack false).copy_unpacked 1 1).dev_packed).getD k 0 =
          (nbPack false).dev_nbor.getD k 0) ∧
     ((nbPack false).copy_unpacked 1 1).dev_nbor = (nbPack false).dev_nbor ∧
     ((nbPack false).copy_unpacked 1 1)._use_packing =
       (nbPack false)._use_packing ∧
     (nbPack false).copy_unpacked 1 1 =
       { nbPack false with
         dev_packed := ((nbPack false).copy_unpacked 1 1).dev_packed }) :=
  ⟨by decide, copy_unpacked_copies (nbPack false) 1 1 (by decide)⟩

/-- C10: for valid indices, `max_nbor_loop` returns the maximum of
`numj[ilist[i]]` over `0 ≤ i < inum` when every such entry is
non-negative — it is an upper bound on the entries and, when `inum > 0`,
is attained by one of them — and it returns 0 when `inum = 0`. -/
theorem max_nbor_loop_max (inum : Nat) (numj : List Int) (ilist : List Nat)
    (hval : ∀ i, i < inum → ilist.getD i 0 < numj.length)
    (hnn : ∀ i, i < inum → 0 ≤ numj.getD (ilist.getD i 0) 0) :
    (∀ i, i < inum →
      numj.getD (ilist.getD i 0) 0 ≤ Neighbor.max_nbor_loop inum numj ilist) ∧
    (0 < inum → ∃ i, i < inum ∧
      Neighbor.max_nbor_loop inum numj ilist =
        numj.getD (ilist.getD i 0) 0) ∧
    (inum = 0 → Neighbor.max_nbor_loop inum numj ilist = 0) := by
  unfold Neighbor.max_nbor_loop
  refine ⟨fun i hi =>
      le_foldl_max (fun i => numj.getD (ilist.getD i 0) 0) 0 inum i hi,
    fun hpos => ?_, fun h0 => by subst h0; rfl⟩
  rcases foldl_max_attained
      (fun i => numj.getD (ilist.getD i 0) 0) 0 inum with h | ⟨i, hi, h⟩
  · refine ⟨0, hpos, le_antisymm ?_ ?_⟩
    · rw [h]
      exact hnn 0 hpos
    · exact le_foldl_max (fun i => numj.getD (ilist.getD i 0) 0) 0 inum 0 hpos
  · exact ⟨i, hi, h⟩

/-- C10 witness: `max_nbor_loop` on `numj = [3, 5]`, `ilist = [1, 0]`,
`inum = 2` (entries 5 and 3, maximum 5). -/
theorem max_nbor_loop_max_witness :
    (∀ i, i < 2 → ([1, 0] : List Nat).getD i 0 <
      ([3, 5] : List Int).length) ∧
    (∀ i, i < 2 →
      0 ≤ ([3, 5] : List Int).getD (([1, 0] : List Nat).getD i 0) 0) ∧
    ((∀ i, i < 2 → ([3, 5] : List Int).getD (([1, 0] : List Nat).getD i 0) 0 ≤
        Neighbor.max_nbor_loop 2 [3, 5] [1, 0]) ∧
     (0 < 2 → ∃ i, i < 2 ∧ Neighbor.max_nbor_loop 2 [3, 5] [1, 0] =
        ([3, 5] : List Int).getD (([1, 0] : List Nat).getD i 0) 0) ∧
     ((2 : Nat) = 0 → Neighbor.max_nbor_loop 2 [3, 5] [1, 0] = 0)) :=
  ⟨by decide, by decide,
   max_nbor_loop_max 2 [3, 5] [1, 0] (by decide) (by decide)⟩

/-- C3: whenever some particle's actual neighbor count during a
device-side build exceeds the allocated `_max_nbors`, `build_nbor_list`
reports failure (`success = false`) and reports, through its `max_nbors`
out-parameter, the true observed maximum neighbor count — an upper bound
on every particle's count that is attained by some particle. -/
theorem build_nbor_list_overflow (s : Neighbor) (inum nall : Nat)
    (pos : Nat → Pos3) (cutsq : Int) (success : Bool) (i : Nat)
    (hi : i < inum) (hover : s._max_nbors < nbor_count nall pos cutsq i) :
    (s.build_nbor_list inum nall pos cutsq success).2.1 = false ∧
    (∀ j, j < inum → nbor_count nall pos cutsq j ≤
      (s.build_nbor_list inum nall pos cutsq success).2.2) ∧
    (∃ j, j < inum ∧ (s.build_nbor_list inum nall pos cutsq success).2.2 =
      nbor_count nall pos cutsq j) := by
  unfold Neighbor.build_nbor_list
  have hle : nbor_count nall pos cutsq i ≤
      (List.range inum).foldl
        (fun m j => max m (nbor_count nall pos cutsq j)) 0 :=
    le_foldl_max _ 0 inum i hi
  have hgt : (List.range inum).foldl
      (fun m j => max m (nbor_count nall pos cutsq j)) 0 > s._max_nbors :=
    lt_of_lt_of_le hover hle
  rw [if_pos hgt]
  refine ⟨rfl, fun j hj => le_foldl_max _ 0 inum j hj, ?_⟩
  rcases foldl_max_attained (fun j => nbor_count nall pos cutsq j) 0 inum
    with h | ⟨j, hj, h⟩
  · omega
  · exact ⟨j, hj, h⟩

/-- Three particles at the origin with `_max_nbors = 1`: every particle has
two neighbors at distance 0. -/
def posOrigin : Nat → Pos3 := fun _ => (0, 0, 0)

/-- C3 witness: the overflow contract evaluated on three coincident
particles against an allocation of one neighbor per particle. -/
theorem build_nbor_list_overflow_witness :
    ((0 : Nat) < 3 ∧
     ({ nbCap100 with _max_nbors := 1 } : Neighbor)._max_nbors <
       nbor_count 3 posOrigin 0 0) ∧
    ((({ nbCap100 with _max_nbors := 1 } : Neighbor).build_nbor_list 3 3
        posOrigin 0 true).2.1 = false ∧
     (∀ j, j < 3 → nbor_count 3 posOrigin 0 j ≤
       (({ nbCap100 with _max_nbors := 1 } : Neighbor).build_nbor_list 3 3
         posOrigin 0 true).2.2) ∧
     (∃ j, j < 3 ∧
       (({ nbCap100 with _max_nbors := 1 } : Neighbor).build_nbor_list 3 3
         posOrigin 0 true).2.2 = nbor_count 3 posOrigin 0 j)) :=
  ⟨⟨by decide, by decide⟩,
   build_nbor_list_overflow { nbCap100 with _max_nbors := 1 } 3 3 posOrigin 0
     true 0 (by decide) (by decide)⟩

end LAMMPS_AL
